import Mathlib

/-!
Verification development for the pulp asynchronous call-coordination core.

The definitions below are a shallow embedding of the Python sources:
  * `src/pulp/server/async_/call.py`  — call states, `CallRequest`, `CallReport`,
    serialization (`pickle.dumps` / `pickle.loads`) of call requests;
  * `client/src/repolib.py`           — `RepoLib.update` (lock discipline) and
    `Repo.update` (property merging).

Python values that the code treats as black boxes (callables, argument values)
are modelled by small inductive types carrying exactly the observable structure
the code depends on: identity, and whether `pickle.dumps` succeeds on them.
`pickle.dumps` is modelled as an injective encoding into `Blob`, which also has
a `corrupt` inhabitant standing for undecodable bytes, so that `pickle.loads`
is partial.  Python `assert isinstance(...)` checks are modelled by the `PyArg`
wrapper: a constructor argument is either a value of the asserted Python type
or a value of some other type (which makes the assert fail).
-/

/-! ## Call states (call.py lines 25-45) -/

def CALL_UNKNOWN : String := "unknown"
def CALL_WAITING : String := "waiting"
def CALL_RUNNING : String := "running"
def CALL_SUSPENDED : String := "suspended"
def CALL_FINISHED : String := "finished"
def CALL_ERROR : String := "error"
def CALL_TIMED_OUT : String := "timed out"
def CALL_CANCELED : String := "canceled"

def CALL_STATES : List String :=
  [CALL_UNKNOWN, CALL_WAITING, CALL_RUNNING, CALL_SUSPENDED,
   CALL_FINISHED, CALL_ERROR, CALL_TIMED_OUT, CALL_CANCELED]

def CALL_READY_STATES : List String := [CALL_WAITING]

def CALL_INCOMPLETE_STATES : List String :=
  [CALL_WAITING, CALL_RUNNING, CALL_SUSPENDED]

def CALL_COMPLETE_STATES : List String :=
  [CALL_FINISHED, CALL_ERROR, CALL_TIMED_OUT, CALL_CANCELED]

/-! ## Opaque Python values

A `Callable` is identified only by its identity; `picklable` records whether
`pickle.dumps` succeeds on it (bound methods and non-top-level functions are
not picklable in Python 2).  `PyData` models arbitrary argument values. -/

structure Callable where
  id : Nat
  picklable : Bool
deriving DecidableEq, Repr

inductive PyData where
  | pyNone
  | pyInt (n : Int)
  | pyStr (s : String)
  | pyFn (c : Callable)
deriving DecidableEq, Repr

def PyData.picklable : PyData → Bool
  | .pyFn c => c.picklable
  | _ => true

/-- Python truthiness-based defaulting `x or default` for an optional string:
`None` and the empty string are falsy. -/
def pyOrStr (x : Option String) (d : String) : String :=
  match x with
  | none => d
  | some s => if s.isEmpty then d else s

/-! ## Pickling model

`Blob α` is the serialized form of a value of type `α`: either the encoding of
an actual value, or bytes that `pickle.loads` cannot decode. -/

inductive Blob (α : Type) where
  | enc (val : α)
  | corrupt
deriving DecidableEq, Repr

/-- `pickle.loads`: decodes an encoded value, fails on corrupt bytes. -/
def Blob.loads {α : Type} : Blob α → Option α
  | .enc a => some a
  | .corrupt => none

def Blob.isCorrupt {α : Type} : Blob α → Bool
  | .enc _ => false
  | .corrupt => true

/-- `pickle.dumps` restricted to values satisfying the picklability predicate
`p`; raises (returns `none`) on unpicklable values. -/
def pdumps {α : Type} (p : α → Bool) (x : α) : Option (Blob α) :=
  if p x then some (.enc x) else none

/-- Every value reachable from the `args` list must be picklable. -/
def argsPicklable (args : List PyData) : Bool :=
  args.all PyData.picklable

/-- Every value stored in the `kwargs` dict must be picklable. -/
def kwargsPicklable (kwargs : List (String × PyData)) : Bool :=
  kwargs.all (fun kv => kv.2.picklable)

/-- Every callback stored in the `exec_hooks` dict must be picklable. -/
def execHooksPicklable (hooks : List (String × List Callable)) : Bool :=
  hooks.all (fun kv => kv.2.all Callable.picklable)

/-- Every callback stored in the `ctl_hooks` dict must be picklable. -/
def ctlHooksPicklable (hooks : List (String × Callable)) : Bool :=
  hooks.all (fun kv => kv.2.picklable)

/-! ## Python dynamic-type arguments

`assert isinstance(x, T)` cannot be violated by a well-typed Lean value, so a
constructor argument is modelled as either a value of the asserted type or a
value of some other Python type, on which the assert fails. -/

inductive PyArg (α : Type) where
  | val (a : α)
  | wrongType
deriving DecidableEq, Repr

/-- Whether the argument passes its `isinstance` assert. -/
def PyArg.ok {α : Type} : PyArg α → Bool
  | .val _ => true
  | .wrongType => false

/-! ## CallRequest (call.py lines 49-169) -/

structure CallRequest where
  call : Callable
  args : List PyData
  kwargs : List (String × PyData)
  resources : List (String × String)
  weight : Int
  timeout : Option Int
  exec_hooks : List (String × List Callable)
  ctl_hooks : List (String × Callable)
  tags : List String
deriving DecidableEq, Repr

/-- `CallRequest.__init__` (call.py lines 73-102).  The asserts check only the
Python type of each argument (`callable(call)`, `isinstance(args, (NoneType,
tuple, list))`, `isinstance(weight, int)`, `isinstance(timeout, (NoneType,
timedelta))`, ...); a failed assert aborts construction (`none`).  Each
optional argument is then defaulted with `x or default`; for the list/dict
arguments `[] or []` and the default coincide, so defaulting is `Option.getD`.
`timeout` is a `timedelta`, modelled by its total microseconds (any integer:
the assert does not inspect the value). -/
def CallRequest.init
    (call : PyArg Callable)
    (args : PyArg (Option (List PyData)))
    (kwargs : PyArg (Option (List (String × PyData))))
    (resources : PyArg (Option (List (String × String))))
    (weight : PyArg Int)
    (timeout : PyArg (Option Int))
    (exec_hooks : PyArg (Option (List (String × List Callable))))
    (ctl_hooks : PyArg (Option (List (String × Callable))))
    (tags : PyArg (Option (List String))) : Option CallRequest :=
  match call, args, kwargs, resources, weight, timeout, exec_hooks, ctl_hooks, tags with
  | .val c, .val a, .val k, .val rs, .val w, .val t, .val eh, .val ch, .val tg =>
      some { call := c
             args := a.getD []
             kwargs := k.getD []
             resources := rs.getD []
             weight := w
             timeout := t
             exec_hooks := eh.getD []
             ctl_hooks := ch.getD []
             tags := tg.getD [] }
  | _, _, _, _, _, _, _, _, _ => none

/-- `CallRequest(call)` with every optional parameter left at its Python
default (`args=None, kwargs=None, resources=None, weight=1, timeout=None,
exec_hooks=None, ctl_hooks=None, tags=None`). -/
def CallRequest.initDefault (call : Callable) : Option CallRequest :=
  CallRequest.init (.val call) (.val none) (.val none) (.val none)
    (.val 1) (.val none) (.val none) (.val none) (.val none)

/-- `CallRequest._pickled_fields` (call.py line 124). -/
def CallRequest.pickledFields : List String :=
  ["call", "args", "kwargs", "timeout", "exec_hooks", "ctl_hooks"]

/-- `CallRequest._copied_fields` (call.py line 125). -/
def CallRequest.copiedFields : List String :=
  ["resources", "weight", "tags"]

/-- The dict produced by `CallRequest.serialize`: one slot per field name, the
six `_pickled_fields` holding pickled blobs and the three `_copied_fields`
holding the plain structured values. -/
structure Record where
  call : Blob Callable
  args : Blob (List PyData)
  kwargs : Blob (List (String × PyData))
  timeout : Blob (Option Int)
  exec_hooks : Blob (List (String × List Callable))
  ctl_hooks : Blob (List (String × Callable))
  resources : List (String × String)
  weight : Int
  tags : List String
deriving DecidableEq, Repr

/-- Some pickled field of the record holds undecodable bytes. -/
def Record.anyCorrupt (d : Record) : Bool :=
  d.call.isCorrupt || d.args.isCorrupt || d.kwargs.isCorrupt ||
  d.timeout.isCorrupt || d.exec_hooks.isCorrupt || d.ctl_hooks.isCorrupt

/-- `CallRequest.serialize` (call.py lines 127-146): pickles each of
`_pickled_fields` in order and copies each of `_copied_fields`; any exception
while pickling is caught and `None` is returned. -/
def CallRequest.serialize (r : CallRequest) : Option Record :=
  (pdumps Callable.picklable r.call).bind fun bc =>
  (pdumps argsPicklable r.args).bind fun ba =>
  (pdumps kwargsPicklable r.kwargs).bind fun bk =>
  (pdumps (fun _ => true) r.timeout).bind fun bt =>
  (pdumps execHooksPicklable r.exec_hooks).bind fun beh =>
  (pdumps ctlHooksPicklable r.ctl_hooks).bind fun bch =>
  some { call := bc
         args := ba
         kwargs := bk
         timeout := bt
         exec_hooks := beh
         ctl_hooks := bch
         resources := r.resources
         weight := r.weight
         tags := r.tags }

/-- `CallRequest.deserialize` (call.py lines 148-169):
`constructor_kwargs = copy.copy(data)` (a shallow copy; the input dict is
never written), each pickled field of the copy is replaced by its decoded
value, and any decode failure is caught and `None` returned; on success the
constructor is invoked on the decoded keyword arguments.  The second
component of the result is the state of the input dict `data` after the
call. -/
def CallRequest.deserialize (data : Record) : Option CallRequest × Record :=
  match data.call.loads, data.args.loads, data.kwargs.loads,
        data.timeout.loads, data.exec_hooks.loads, data.ctl_hooks.loads with
  | some c, some a, some k, some t, some eh, some ch =>
      (CallRequest.init (.val c) (.val (some a)) (.val (some k))
        (.val (some data.resources)) (.val data.weight) (.val t)
        (.val (some eh)) (.val (some ch)) (.val (some data.tags)), data)
  | _, _, _, _, _, _ => (none, data)

/-! ## CallReport (call.py lines 173-226) -/

structure CallReport where
  response : String
  reason : List (String × String)
  state : String
  task_id : Option String
  job_id : Option String
  progress : List (String × PyData)
  return_value : Option PyData
  exception : Option String
  traceback : Option String
deriving DecidableEq, Repr

/-- `CallReport.__init__` (call.py lines 197-226).  The asserts are pure
`isinstance` checks, subsumed here by the parameter types; `response` and
`state` default to `CALL_UNKNOWN` by Python truthiness (`x or CALL_UNKNOWN`),
`reason` and `progress` default to the empty dict, and the remaining fields
are stored as given. -/
def CallReport.init
    (response : Option String)
    (reason : Option (List (String × String)))
    (state : Option String)
    (task_id : Option String)
    (job_id : Option String)
    (progress : Option (List (String × PyData)))
    (return_value : Option PyData)
    (exception : Option String)
    (traceback : Option String) : CallReport :=
  { response := pyOrStr response CALL_UNKNOWN
    reason := reason.getD []
    state := pyOrStr state CALL_UNKNOWN
    task_id := task_id
    job_id := job_id
    progress := progress.getD []
    return_value := return_value
    exception := exception
    traceback := traceback }

/-- `CallReport()` with every parameter left at its Python default (`None`). -/
def CallReport.initDefault : CallReport :=
  CallReport.init none none none none none none none none none

/-! ## repolib.py: RepoLib.update lock discipline (repolib.py lines 45-55)

The action lock and the update action are external collaborators (`Lock`,
`UpdateAction.perform` touch the filesystem and the network); their behaviour
is abstracted: the body is an arbitrary outcome (a returned update count or a
raised exception), and lock operations are recorded in an event trace. -/

/-- Outcome of running a Python statement list: a returned value, or an
exception propagating out. -/
inductive PyResult (α : Type) where
  | ok (val : α)
  | raised
deriving DecidableEq, Repr

/-- Observable events of `RepoLib.update`. -/
inductive Ev where
  | acquired
  | bodyRun
  | released
deriving DecidableEq, Repr

/-- `lock.acquire()`: records the acquisition. -/
def Lock.acquire (tr : List Ev) : List Ev := tr ++ [Ev.acquired]

/-- `lock.release()`: records the release. -/
def Lock.release (tr : List Ev) : List Ev := tr ++ [Ev.released]

/-- `try: body finally: fin`: the finalizer runs whether the body returned or
raised, and the body's outcome (return value or propagating exception) is
preserved. -/
def pyTryFinally {α σ : Type} (body : σ → PyResult α × σ) (fin : σ → σ)
    (s : σ) : PyResult α × σ :=
  let p := body s
  (p.1, fin p.2)

/-- `action = UpdateAction(); return action.perform()`: the body runs (its
outcome is the abstract parameter) and is recorded in the trace. -/
def runUpdateAction (body : PyResult Int) (tr : List Ev) :
    PyResult Int × List Ev :=
  (body, tr ++ [Ev.bodyRun])

/-- `RepoLib.update` (repolib.py lines 45-55): acquire the action lock, run
the update action under `try`/`finally`, releasing the lock on the way out. -/
def RepoLib.update (body : PyResult Int) (tr : List Ev) :
    PyResult Int × List Ev :=
  pyTryFinally (runUpdateAction body) Lock.release (Lock.acquire tr)

/-! ## repolib.py: Repo (repolib.py lines 188-245)

A `Repo` is a dict keyed by property name; the three `PROPERTIES` keys are
modelled as fields (every `Repo` built by `__init__` has them), and any other
keys a `.repo` file section may carry live in `extra`.  A stored value may be
`None` (the default for `name` and `baseurl`), hence `Option String`. -/

structure Repo where
  id : String
  name : Option String
  baseurl : Option String
  enabled : Option String
  extra : List (String × Option String)
deriving DecidableEq, Repr

/-- `Repo.PROPERTIES` (repolib.py lines 200-204): `(name, mutable, default)`
triples. -/
def Repo.PROPERTIES : List (String × Nat × Option String) :=
  [("name", 0, none), ("baseurl", 0, none), ("enabled", 1, some "1")]

/-- `Repo.__init__` (repolib.py lines 206-213): store each property's
default. -/
def Repo.ofId (id : String) : Repo :=
  { id := id, name := none, baseurl := none, enabled := some "1", extra := [] }

/-- `other.get(k)` / `self[k]`: the stored value for key `k`; a missing key
and a stored `None` both read as `none` (every `Repo` holds the three
`PROPERTIES` keys, so `self[k]` never raises for them). -/
def Repo.get (r : Repo) (k : String) : Option String :=
  if k = "name" then r.name
  else if k = "baseurl" then r.baseurl
  else if k = "enabled" then r.enabled
  else (r.extra.lookup k).join

/-- `self[k] = v` for a property key. -/
def Repo.set (r : Repo) (k : String) (v : Option String) : Repo :=
  if k = "name" then { r with name := v }
  else if k = "baseurl" then { r with baseurl := v }
  else if k = "enabled" then { r with enabled := v }
  else { r with extra := (k, v) :: r.extra.eraseP (fun kv => kv.1 = k) }

/-- `Repo.update` (repolib.py lines 227-245): for each `PROPERTIES` entry
`(k, m, d)`, read `v = other.get(k)`; when the mutable flag `m` is unset,
skip a `None` or unchanged value, otherwise store `v` and count the update.
Returns the updated repo and the count. -/
def Repo.update (self other : Repo) : Repo × Nat :=
  Repo.PROPERTIES.foldl
    (fun acc kmd =>
      let s := acc.1
      let count := acc.2
      let k := kmd.1
      let m := kmd.2.1
      let v := other.get k
      if m = 0 then
        match v with
        | none => (s, count)
        | some vv =>
            if s.get k = some vv then (s, count)
            else (s.set k (some vv), count + 1)
      else (s, count))
    (self, 0)

/-! ## Helper lemmas -/

theorem pdumps_eq_some {α : Type} {p : α → Bool} {x : α} {b : Blob α}
    (h : pdumps p x = some b) : b = Blob.enc x := by
  unfold pdumps at h
  split at h
  · injection h with h
    exact h.symm
  · cases h

/-! ## Claim theorems -/

/-- Claim C5: the call lifecycle states are exactly unknown, waiting, running,
suspended, finished, error, timed out and canceled; the complete (terminal)
states are exactly finished, error, timed out and canceled; the incomplete
states are exactly waiting, running and suspended; and every state other than
unknown lies in exactly one of the complete and incomplete sets. -/
theorem call_states_partition :
    CALL_STATES = ["unknown", "waiting", "running", "suspended",
                   "finished", "error", "timed out", "canceled"] ∧
    CALL_COMPLETE_STATES = ["finished", "error", "timed out", "canceled"] ∧
    CALL_INCOMPLETE_STATES = ["waiting", "running", "suspended"] ∧
    CALL_STATES.all (fun s =>
      s == CALL_UNKNOWN ||
      (CALL_COMPLETE_STATES.contains s && !(CALL_INCOMPLETE_STATES.contains s)) ||
      (CALL_INCOMPLETE_STATES.contains s && !(CALL_COMPLETE_STATES.contains s))) = true := by
  refine ⟨rfl, rfl, rfl, ?_⟩
  decide

/-- Claim C6: a `CallRequest` constructed with only a callable gets weight 1,
no resource constraints, empty args, kwargs, hooks and tags, and no
timeout. -/
theorem initDefault_field_values (c : Callable) :
    CallRequest.initDefault c =
      some { call := c, args := [], kwargs := [], resources := [], weight := 1,
             timeout := none, exec_hooks := [], ctl_hooks := [], tags := [] } := rfl

/-- Claim C9: a `CallReport` constructed with all arguments omitted has state
and response `unknown`, empty reason and progress, and no task id, job id,
return value, exception or traceback. -/
theorem callReport_default_field_values :
    CallReport.initDefault =
      { response := CALL_UNKNOWN, reason := [], state := CALL_UNKNOWN,
        task_id := none, job_id := none, progress := [], return_value := none,
        exception := none, traceback := none } := rfl

/-- Claim C7: `RepoLib.update` acquires the action lock before running the
update action, releases it on every exit path (the trace ends with the
release whether the body returned or raised), and propagates the body's
outcome unchanged. -/
theorem repolib_update_lock_discipline (body : PyResult Int) (tr : List Ev) :
    RepoLib.update body tr =
      (body, tr ++ [Ev.acquired, Ev.bodyRun, Ev.released]) := by
  simp [RepoLib.update, pyTryFinally, runUpdateAction, Lock.acquire, Lock.release]

/-- Claim C8: `CallRequest.deserialize` never mutates the record passed to it;
the input dict is identical after the call, whether decoding succeeded or
failed. -/
theorem deserialize_preserves_input (d : Record) :
    (CallRequest.deserialize d).2 = d := by
  unfold CallRequest.deserialize
  split <;> rfl

/-- Claim C3 counterexample: `CallRequest.__init__` accepts weight `0 < 1`, a
timeout of `0` (not strictly positive) and an empty-string resources key; the
construction succeeds and stores those values, so construction does not fail
with `InvalidRequest` on them. -/
theorem construct_invalid_values_accepted :
    (CallRequest.init (.val ⟨0, true⟩) (.val none) (.val none)
        (.val (some [("", "read")])) (.val 0) (.val (some 0)) (.val none)
        (.val none) (.val none)).map
      (fun r => (r.weight, r.timeout, r.resources))
      = some (0, some 0, [("", "read")]) := rfl

/-- Claim C3 (amended): construction of a `CallRequest` fails exactly when
some argument fails its `isinstance` type assert; no value validation is
performed, so weight, timeout and resource keys are stored as given even when
weight < 1, timeout is not strictly positive, or a resources key is empty. -/
theorem init_succeeds_iff_args_well_typed
    (call : PyArg Callable) (args : PyArg (Option (List PyData)))
    (kwargs : PyArg (Option (List (String × PyData))))
    (resources : PyArg (Option (List (String × String))))
    (weight : PyArg Int) (timeout : PyArg (Option Int))
    (exec_hooks : PyArg (Option (List (String × List Callable))))
    (ctl_hooks : PyArg (Option (List (String × Callable))))
    (tags : PyArg (Option (List String))) :
    (CallRequest.init call args kwargs resources weight timeout
        exec_hooks ctl_hooks tags).isSome =
      (call.ok && args.ok && kwargs.ok && resources.ok && weight.ok &&
       timeout.ok && exec_hooks.ok && ctl_hooks.ok && tags.ok) := by
  cases call <;> cases args <;> cases kwargs <;> cases resources <;>
    cases weight <;> cases timeout <;> cases exec_hooks <;> cases ctl_hooks <;>
    cases tags <;> rfl

/-- Claim C1: for every `CallRequest` whose fields pickle successfully,
deserializing the serialized record returns the identical request: same
resources, weight, tags, timeout, callable identity, args and kwargs. -/
theorem serialize_deserialize_round_trip (r : CallRequest) (d : Record)
    (h : r.serialize = some d) :
    (CallRequest.deserialize d).1 = some r := by
  unfold CallRequest.serialize at h
  simp only [Option.bind_eq_some] at h
  obtain ⟨bc, hbc, ba, hba, bk, hbk, bt, hbt, beh, hbeh, bch, hbch, hd⟩ := h
  rw [pdumps_eq_some hbc, pdumps_eq_some hba, pdumps_eq_some hbk,
      pdumps_eq_some hbt, pdumps_eq_some hbeh, pdumps_eq_some hbch] at hd
  injection hd with hd
  subst hd
  rfl

/-- Claim C2: if decoding any one of the pickled fields of a record fails,
`CallRequest.deserialize` yields no `CallRequest` at all (all-or-nothing). -/
theorem deserialize_all_or_nothing (d : Record) (h : d.anyCorrupt = true) :
    (CallRequest.deserialize d).1 = none := by
  obtain ⟨bc, ba, bk, bt, beh, bch, rs, w, tg⟩ := d
  cases bc <;> cases ba <;> cases bk <;> cases bt <;> cases beh <;> cases bch <;>
    simp_all [CallRequest.deserialize, Record.anyCorrupt, Blob.isCorrupt, Blob.loads]

/-- Claim C4: a record produced by `CallRequest.serialize` stores the pickled
encodings of exactly `call`, `args`, `kwargs`, `timeout`, `exec_hooks` and
`ctl_hooks` (the `_pickled_fields`), and the plain structured values of
`resources`, `weight` and `tags` (the `_copied_fields`), directly readable
without decoding. -/
theorem serialize_field_encoding (r : CallRequest) (d : Record)
    (h : r.serialize = some d) :
    d.call = Blob.enc r.call ∧ d.args = Blob.enc r.args ∧
    d.kwargs = Blob.enc r.kwargs ∧ d.timeout = Blob.enc r.timeout ∧
    d.exec_hooks = Blob.enc r.exec_hooks ∧ d.ctl_hooks = Blob.enc r.ctl_hooks ∧
    d.resources = r.resources ∧ d.weight = r.weight ∧ d.tags = r.tags ∧
    CallRequest.pickledFields =
      ["call", "args", "kwargs", "timeout", "exec_hooks", "ctl_hooks"] ∧
    CallRequest.copiedFields = ["resources", "weight", "tags"] := by
  unfold CallRequest.serialize at h
  simp only [Option.bind_eq_some] at h
  obtain ⟨bc, hbc, ba, hba, bk, hbk, bt, hbt, beh, hbeh, bch, hbch, hd⟩ := h
  rw [pdumps_eq_some hbc, pdumps_eq_some hba, pdumps_eq_some hbk,
      pdumps_eq_some hbt, pdumps_eq_some hbeh, pdumps_eq_some hbch] at hd
  injection hd with hd
  subst hd
  exact ⟨rfl, rfl, rfl, rfl, rfl, rfl, rfl, rfl, rfl, rfl, rfl⟩

/-! ## Concrete witnesses -/

/-- A concrete, fully picklable call request. -/
def sampleReq : CallRequest :=
  { call := ⟨1, true⟩
    args := [PyData.pyInt 7, PyData.pyStr "repo"]
    kwargs := [("limit", PyData.pyInt 3)]
    resources := [("repo:A", "read")]
    weight := 2
    timeout := some 600
    exec_hooks := [("enqueued", [⟨2, true⟩])]
    ctl_hooks := [("cancel", ⟨3, true⟩)]
    tags := ["sync"] }

/-- The record `sampleReq.serialize` produces. -/
def sampleRec : Record :=
  { call := .enc ⟨1, true⟩
    args := .enc [PyData.pyInt 7, PyData.pyStr "repo"]
    kwargs := .enc [("limit", PyData.pyInt 3)]
    timeout := .enc (some 600)
    exec_hooks := .enc [("enqueued", [⟨2, true⟩])]
    ctl_hooks := .enc [("cancel", ⟨3, true⟩)]
    resources := [("repo:A", "read")]
    weight := 2
    tags := ["sync"] }

/-- A record whose `args` bytes cannot be decoded. -/
def corruptRec : Record :=
  { sampleRec with args := .corrupt }

/-- Claim C1 witness: the round-trip law applied to `sampleReq`. -/
theorem serialize_deserialize_round_trip_witness :
    (CallRequest.deserialize sampleRec).1 = some sampleReq :=
  serialize_deserialize_round_trip sampleReq sampleRec rfl

/-- Claim C2 witness: deserializing a record with corrupt `args` bytes yields
no request. -/
theorem deserialize_all_or_nothing_witness :
    (CallRequest.deserialize corruptRec).1 = none :=
  deserialize_all_or_nothing corruptRec rfl

/-- Claim C4 witness: the field-encoding shape of `sampleReq`'s record. -/
theorem serialize_field_encoding_witness :
    sampleRec.call = Blob.enc sampleReq.call ∧
    sampleRec.args = Blob.enc sampleReq.args ∧
    sampleRec.kwargs = Blob.enc sampleReq.kwargs ∧
    sampleRec.timeout = Blob.enc sampleReq.timeout ∧
    sampleRec.exec_hooks = Blob.enc sampleReq.exec_hooks ∧
    sampleRec.ctl_hooks = Blob.enc sampleReq.ctl_hooks ∧
    sampleRec.resources = sampleReq.resources ∧
    sampleRec.weight = sampleReq.weight ∧
    sampleRec.tags = sampleReq.tags ∧
    CallRequest.pickledFields =
      ["call", "args", "kwargs", "timeout", "exec_hooks", "ctl_hooks"] ∧
    CallRequest.copiedFields = ["resources", "weight", "tags"] :=
  serialize_field_encoding sampleReq sampleRec rfl

/-- Claim C10: `Repo.update` changes only the non-mutable properties `name`
and `baseurl`, each only when `other` holds a non-`None` value different from
the current one; `enabled`, the repo id and any extra keys are untouched, and
the returned count is the number of properties actually changed. -/
theorem repo_update_frame (r o : Repo) :
    (Repo.update r o).1.id = r.id ∧
    (Repo.update r o).1.enabled = r.enabled ∧
    (Repo.update r o).1.extra = r.extra ∧
    (Repo.update r o).1.name =
      (match o.name with | none => r.name | some v => some v) ∧
    (Repo.update r o).1.baseurl =
      (match o.baseurl with | none => r.baseurl | some v => some v) ∧
    (Repo.update r o).2 =
      ((if o.name ≠ none ∧ o.name ≠ r.name then 1 else 0) +
       (if o.baseurl ≠ none ∧ o.baseurl ≠ r.baseurl then 1 else 0)) := by
  obtain ⟨id1, n1, b1, e1, ex1⟩ := r
  obtain ⟨id2, n2, b2, e2, ex2⟩ := o
  cases n2 <;> cases b2 <;>
    simp only [Repo.update, Repo.PROPERTIES, List.foldl, Repo.get, Repo.set] <;>
    norm_num <;> split_ifs <;> simp_all <;> split_ifs <;> simp_all
